import Mathlib

/-!
Shallow embedding of the game-state update/collision/scroll loop of
`src/DoodleJumpGame/main.cpp` (a single-file endless-jumper game).

Modelling conventions:
* C++ `float` coordinates and velocities are modelled as exact rationals `ℚ`.
* `rand()` is modelled as an abstract stream `rng : ℕ → ℕ` together with an
  index `k` pointing at the next unconsumed draw; each C++ `rand()` call reads
  `rng k` and advances the index.  `rand() % m` becomes `rng k % m`.
* Rendering, textures, fonts and the window are presentation-layer collaborators
  and are not part of the simulation state; the one observable side effect of
  collision handling (the jump sound) is modelled by counting hit events.
-/

namespace DoodleJump

/-- `sf::Vector2f` as used for positions. -/
structure Vec2 where
  x : ℚ
  y : ℚ
  deriving Repr, DecidableEq

/-- The `Player` object: `position` plus the private fields `dx`, `dy`
(`dy` is the vertical velocity). -/
structure Player where
  pos : Vec2
  dx : ℚ
  dy : ℚ
  deriving Repr, DecidableEq

/-- The `Platform` object: just a position. -/
structure Platform where
  pos : Vec2
  deriving Repr, DecidableEq

/-- `Platform::move(float dy) { position.y -= dy; }` -/
def Platform.move (p : Platform) (dy : ℚ) : Platform :=
  { p with pos := { p.pos with y := p.pos.y - dy } }

/-- The `Player()` constructor: `GameObject(200, 200)`, `dx(0)`, `dy(0)`. -/
def Player.init : Player :=
  { pos := { x := 200, y := 200 }, dx := 0, dy := 0 }

/-- `Player::moveLeft() { position.x -= 5.0f; }` -/
def Player.moveLeft (pl : Player) : Player :=
  { pl with pos := { pl.pos with x := pl.pos.x - 5 } }

/-- `Player::moveRight() { position.x += 5.0f; }` -/
def Player.moveRight (pl : Player) : Player :=
  { pl with pos := { pl.pos with x := pl.pos.x + 5 } }

/-- `Player::applyGravity() { dy += 0.2f; position.y += dy; }` -/
def Player.applyGravity (pl : Player) : Player :=
  let dy2 := pl.dy + 0.2
  { pl with dy := dy2, pos := { pl.pos with y := pl.pos.y + dy2 } }

/-- `Player::jump() { dy = -8.0f; }` -/
def Player.jump (pl : Player) : Player :=
  { pl with dy := -8 }

/-- `Player::reset() { position = {200, 200}; dx = 0; dy = 0; }` -/
def Player.reset (_pl : Player) : Player :=
  { pos := { x := 200, y := 200 }, dx := 0, dy := 0 }

/-- The whole game state owned by `Game` that the simulation core touches:
player, platform vector, score, game-over flag.  (Window, sprites, texts and
sounds are presentation state and are excluded.) -/
structure GameState where
  player : Player
  platforms : List Platform
  score : ℤ
  gameOver : Bool
  deriving Repr, DecidableEq

/-- The per-frame inputs sampled from the keyboard / event queue:
whether Left and Right are held during `handleInput`, and whether an event was
polled while `R` (retry) resp. `Escape` was pressed. -/
structure Input where
  left : Bool
  right : Bool
  rPressed : Bool
  escPressed : Bool
  deriving Repr, DecidableEq

/-- `Game::handleInput()`: if Left is held move left, if Right is held move
right (both may fire in the same frame). -/
def handleInput (inp : Input) (pl : Player) : Player :=
  let pl1 := if inp.left then pl.moveLeft else pl
  if inp.right then pl1.moveRight else pl1

/-- The condition of `Game::handleCollisions` for one platform:
`(plPos.x + 50 > pPos.x) && (plPos.x + 20 < pPos.x + 68) &&
 (plPos.y + 70 > pPos.y) && (plPos.y + 70 < pPos.y + 14) &&
 (player.getVelocityY() > 0)`. -/
def hitTest (pl : Player) (p : Platform) : Bool :=
  decide (pl.pos.x + 50 > p.pos.x) && decide (pl.pos.x + 20 < p.pos.x + 68) &&
  decide (pl.pos.y + 70 > p.pos.y) && decide (pl.pos.y + 70 < p.pos.y + 14) &&
  decide (pl.dy > 0)

/-- `Game::handleCollisions()`: iterate over the platform vector in order; on
each platform whose test passes, call `player.jump()` and play the jump sound.
The returned `ℕ` counts how many times the sound was played (hit events). -/
def handleCollisions : Player → List Platform → Player × ℕ
  | pl, [] => (pl, 0)
  | pl, p :: ps =>
    if hitTest pl p then
      let res := handleCollisions pl.jump ps
      (res.1, res.2 + 1)
    else
      handleCollisions pl ps

/-- The body of the loop in `Game::updatePlatforms()`, threading the platform
list, the rng index and the score: each platform first does
`platform.move(player.getVelocityY())`; then if `position.y > 700` it is reset
to `(rand() % 500, 0)` and `score++`. -/
def updatePlatformsAux (rng : ℕ → ℕ) (vy : ℚ) :
    List Platform → ℕ → ℤ → List Platform × ℕ × ℤ
  | [], k, sc => ([], k, sc)
  | p :: ps, k, sc =>
    let p1 := p.move vy
    if p1.pos.y > 700 then
      let p2 : Platform := { pos := { x := (rng k % 500 : ℕ), y := 0 } }
      let res := updatePlatformsAux rng vy ps (k + 1) (sc + 1)
      (p2 :: res.1, res.2)
    else
      let res := updatePlatformsAux rng vy ps k sc
      (p1 :: res.1, res.2)

/-- `Game::updatePlatforms()` acting on the whole state (the trailing
`updateScoreText()` call is presentation only). -/
def updatePlatforms (rng : ℕ → ℕ) (k : ℕ) (s : GameState) : GameState × ℕ :=
  let res := updatePlatformsAux rng s.player.dy s.platforms k s.score
  ({ s with platforms := res.1, score := res.2.2 }, res.2.1)

/-- The scroll-up block of `Game::run`:
`if (player.getPosition().y < 300) { float offset = 300 - player.getPosition().y;
 player.setPosition(player.getPosition().x, 300);
 for (auto& platform : platforms) platform.move(-offset); }`. -/
def scrollStep (pl : Player) (ps : List Platform) : Player × List Platform :=
  if pl.pos.y < 300 then
    let offset := 300 - pl.pos.y
    ({ pl with pos := { pl.pos with y := 300 } },
     ps.map (fun p => p.move (-offset)))
  else
    (pl, ps)

/-- The platform construction loop of `Game::resetGame()`:
`for (int i = 0; i < 10; i++) platforms.emplace_back(rand() % 500, rand() % 700);`
(each iteration consumes two rng draws; C++ leaves the order of the two calls
within one `emplace_back` unspecified, and nothing below depends on it: we take
the x draw first). -/
def mkPlatforms (rng : ℕ → ℕ) : ℕ → ℕ → List Platform
  | _, 0 => []
  | k, n + 1 =>
    ({ pos := { x := (rng k % 500 : ℕ), y := (rng (k + 1) % 700 : ℕ) } } : Platform)
      :: mkPlatforms rng (k + 2) n

/-- `Game::resetGame()`: reset the player, zero the score, clear the flag,
rebuild the 10 platforms from fresh random draws (the trailing
`updateScoreText()` is presentation only). -/
def resetGame (rng : ℕ → ℕ) (k : ℕ) (s : GameState) : GameState × ℕ :=
  ({ player := s.player.reset,
     platforms := mkPlatforms rng k 10,
     score := 0,
     gameOver := false }, k + 20)

/-- The body of `if (!gameOver) { ... }` in `Game::run`, in source order:
`handleInput()`; `player.update()` (which calls `applyGravity`); the fall-out
check setting `gameOver`; the scroll-up block; `updatePlatforms()`;
`handleCollisions()`.  Returns the new state and the new rng index. -/
def playFrame (rng : ℕ → ℕ) (k : ℕ) (inp : Input) (s : GameState) :
    GameState × ℕ :=
  let pl1 := handleInput inp s.player
  let pl2 := pl1.applyGravity
  let go := if pl2.pos.y > 700 then true else s.gameOver
  let sc := scrollStep pl2 s.platforms
  let up := updatePlatformsAux rng sc.1.dy sc.2 k s.score
  let col := handleCollisions sc.1 up.1
  ({ player := col.1, platforms := up.1, score := up.2.2, gameOver := go },
   up.2.1)

/-- One iteration of the `while (window.isOpen())` loop of `Game::run`, minus
the draw call (presentation): first the event poll, where with `gameOver` set a
polled event with `R` held runs `resetGame()` (Escape would close the window
and end the loop, leaving the state untouched); then, if `gameOver` is false,
the simulation block `playFrame`. -/
def loopIter (rng : ℕ → ℕ) (k : ℕ) (inp : Input) (s : GameState) :
    GameState × ℕ :=
  let ev := if s.gameOver && inp.rPressed then resetGame rng k s else (s, k)
  if ev.1.gameOver then ev else playFrame rng ev.2 inp ev.1

/-! ### The per-frame update decomposed into its stages

Each stage below wraps one statement (or block) of the `if (!gameOver)` body of
`Game::run` as a transformer of the whole state, so that the fixed per-frame
order can be stated as an equation between `playFrame` and their composition. -/

/-- Stage 1 of a Playing frame: `handleInput()`. -/
def stepInput (inp : Input) (s : GameState) : GameState :=
  { s with player := handleInput inp s.player }

/-- Stage 2 of a Playing frame: `player.update()`, i.e. `applyGravity()`. -/
def stepGravity (s : GameState) : GameState :=
  { s with player := s.player.applyGravity }

/-- Stage 3 of a Playing frame: `if (player.getPosition().y > 700) gameOver = true;`. -/
def stepFallCheck (s : GameState) : GameState :=
  { s with gameOver := if s.player.pos.y > 700 then true else s.gameOver }

/-- Stage 4 of a Playing frame: the scroll-up block. -/
def stepScroll (s : GameState) : GameState :=
  let r := scrollStep s.player s.platforms
  { s with player := r.1, platforms := r.2 }

/-- Stage 6 of a Playing frame: `handleCollisions()` (the hit count is the
sound side effect, dropped at state level). -/
def stepCollisions (s : GameState) : GameState :=
  { s with player := (handleCollisions s.player s.platforms).1 }

/-- The number of platforms of `ps` that the recycle rule fires on when the
player's vertical velocity is `vy`: those whose `y` exceeds `700` after
`move(vy)`. -/
def recycleCount (vy : ℚ) (ps : List Platform) : ℕ :=
  ps.countP (fun p => decide ((p.move vy).pos.y > 700))

/-! ### Helper lemmas -/

/-- `handleInput` only moves the player horizontally: `y` is untouched. -/
theorem handleInput_pos_y (inp : Input) (pl : Player) :
    (handleInput inp pl).pos.y = pl.pos.y := by
  unfold handleInput Player.moveLeft Player.moveRight
  cases inp.left <;> cases inp.right <;> simp

/-- `handleInput` does not change the vertical velocity. -/
theorem handleInput_dy (inp : Input) (pl : Player) :
    (handleInput inp pl).dy = pl.dy := by
  unfold handleInput Player.moveLeft Player.moveRight
  cases inp.left <;> cases inp.right <;> simp

/-- After `n` iterated `applyGravity` calls the vertical velocity has grown by
exactly `n` times the gravity constant. -/
theorem gravity_iterate_dy (pl : Player) (n : ℕ) :
    (Player.applyGravity^[n] pl).dy = pl.dy + n * 0.2 := by
  induction n with
  | zero => simp
  | succ n ih =>
    rw [Function.iterate_succ_apply']
    show (Player.applyGravity^[n] pl).dy + 0.2 = _
    rw [ih]
    push_cast
    ring

/-- A player who is not moving downward never passes the hit test, so the
collision pass leaves the state alone and plays no sound. -/
theorem handleCollisions_of_dy_nonpos (pl : Player) (ps : List Platform)
    (h : pl.dy ≤ 0) : handleCollisions pl ps = (pl, 0) := by
  induction ps with
  | nil => rfl
  | cons p ps ih =>
    have hd : decide (pl.dy > 0) = false := decide_eq_false (not_lt.mpr h)
    simp only [handleCollisions, hitTest, hd, Bool.and_false, if_false]
    exact ih

/-- The score returned by the `updatePlatforms` loop is the old score plus the
number of platforms the recycle rule fired on. -/
theorem updAux_score (rng : ℕ → ℕ) (vy : ℚ) :
    ∀ (ps : List Platform) (k : ℕ) (sc : ℤ),
      (updatePlatformsAux rng vy ps k sc).2.2 = sc + recycleCount vy ps := by
  intro ps
  induction ps with
  | nil => intro k sc; simp [updatePlatformsAux, recycleCount]
  | cons p ps ih =>
    intro k sc
    by_cases h : (p.move vy).pos.y > 700
    · simp only [updatePlatformsAux, if_pos h, ih, recycleCount,
        List.countP_cons, decide_eq_true_eq, h, if_pos]
      push_cast
      ring
    · simp only [updatePlatformsAux, if_neg h, ih, recycleCount,
        List.countP_cons, decide_eq_true_eq, h, if_neg, not_false_iff]
      push_cast
      ring

/-- The `updatePlatforms` loop preserves the length of the platform vector. -/
theorem updAux_length (rng : ℕ → ℕ) (vy : ℚ) :
    ∀ (ps : List Platform) (k : ℕ) (sc : ℤ),
      (updatePlatformsAux rng vy ps k sc).1.length = ps.length := by
  intro ps
  induction ps with
  | nil => intro k sc; rfl
  | cons p ps ih =>
    intro k sc
    by_cases h : (p.move vy).pos.y > 700
    · simp [updatePlatformsAux, if_pos h, ih]
    · simp [updatePlatformsAux, if_neg h, ih]

/-- Pointwise behaviour of the `updatePlatforms` loop: a platform whose moved
position exceeds the bottom bound is replaced by `(rand() % 500, 0)` for some
rng draw; any other platform is exactly its moved self. -/
theorem updAux_get (rng : ℕ → ℕ) (vy : ℚ) :
    ∀ (ps : List Platform) (k : ℕ) (sc : ℤ) (i : ℕ) (h : i < ps.length),
      (((ps.get ⟨i, h⟩).move vy).pos.y > 700 →
        ∃ j, (updatePlatformsAux rng vy ps k sc).1[i]? =
          some { pos := { x := ((rng j % 500 : ℕ) : ℚ), y := 0 } }) ∧
      (¬ ((ps.get ⟨i, h⟩).move vy).pos.y > 700 →
        (updatePlatformsAux rng vy ps k sc).1[i]? =
          some ((ps.get ⟨i, h⟩).move vy)) := by
  intro ps
  induction ps with
  | nil => intro k sc i h; exact absurd h (Nat.not_lt_zero i)
  | cons p ps ih =>
    intro k sc i h
    by_cases hp : (p.move vy).pos.y > 700
    · cases i with
      | zero =>
        refine ⟨fun _ => ⟨k, ?_⟩, fun hno => absurd hp hno⟩
        simp [updatePlatformsAux, if_pos hp]
      | succ i =>
        have h' : i < ps.length := Nat.lt_of_succ_lt_succ h
        have := ih (k + 1) (sc + 1) i h'
        simpa [updatePlatformsAux, if_pos hp] using this
    · cases i with
      | zero =>
        refine ⟨fun hyes => absurd hyes hp, fun _ => ?_⟩
        simp [updatePlatformsAux, if_neg hp]
      | succ i =>
        have h' : i < ps.length := Nat.lt_of_succ_lt_succ h
        have := ih k sc i h'
        simpa [updatePlatformsAux, if_neg hp] using this

/-- The scroll-up block never changes the number of platforms. -/
theorem scrollStep_length (pl : Player) (ps : List Platform) :
    (scrollStep pl ps).2.length = ps.length := by
  unfold scrollStep
  by_cases h : pl.pos.y < 300 <;> simp [h]

/-- The scroll-up block never changes the player's vertical velocity. -/
theorem scrollStep_dy (pl : Player) (ps : List Platform) :
    (scrollStep pl ps).1.dy = pl.dy := by
  unfold scrollStep
  by_cases h : pl.pos.y < 300 <;> simp [h]

/-- `resetGame`'s construction loop produces exactly `n` platforms. -/
theorem mkPlatforms_length (rng : ℕ → ℕ) :
    ∀ (n k : ℕ), (mkPlatforms rng k n).length = n := by
  intro n
  induction n with
  | zero => intro k; rfl
  | succ n ih => intro k; simp [mkPlatforms, ih]

/-- If some platform of the list passes the hit test against the incoming
player, the collision pass returns the jumped player and exactly one hit: the
first passing platform fires `jump()`, which makes the velocity negative, and
every later platform then fails the `velocity > 0` conjunct. -/
theorem handleCollisions_first_hit (pl : Player) :
    ∀ ps : List Platform, (∃ p ∈ ps, hitTest pl p = true) →
      handleCollisions pl ps = (pl.jump, 1) := by
  intro ps
  induction ps with
  | nil => rintro ⟨p, hp, -⟩; exact absurd hp (List.not_mem_nil p)
  | cons p ps ih =>
    rintro ⟨q, hq, hqt⟩
    by_cases hp : hitTest pl p = true
    · have hjump : handleCollisions pl.jump ps = (pl.jump, 0) :=
        handleCollisions_of_dy_nonpos pl.jump ps (by norm_num [Player.jump])
      simp [handleCollisions, hp, hjump]
    · rcases List.mem_cons.mp hq with rfl | hq'
      · exact absurd hqt hp
      · simp only [handleCollisions, hp, if_false]
        exact ih ⟨q, hq', hqt⟩

/-- If no platform passes the hit test against the incoming player, the
collision pass is a no-op with zero hits. -/
theorem handleCollisions_no_hit (pl : Player) :
    ∀ ps : List Platform, (∀ p ∈ ps, hitTest pl p = false) →
      handleCollisions pl ps = (pl, 0) := by
  intro ps
  induction ps with
  | nil => intro _; rfl
  | cons p ps ih =>
    intro h
    have hp : hitTest pl p = false := h p (List.mem_cons_self p ps)
    simp only [handleCollisions, hp, if_false]
    exact ih fun q hq => h q (List.mem_cons_of_mem p hq)

/-- With the game-over flag clear, a loop iteration is exactly the simulation
block. -/
theorem loopIter_playing (rng : ℕ → ℕ) (k : ℕ) (inp : Input) (s : GameState)
    (h : s.gameOver = false) : loopIter rng k inp s = playFrame rng k inp s := by
  simp [loopIter, h, playFrame]

/-- The game-over flag computed by a simulation block. -/
theorem playFrame_gameOver (rng : ℕ → ℕ) (k : ℕ) (inp : Input) (s : GameState) :
    (playFrame rng k inp s).1.gameOver =
      (if (Player.applyGravity (handleInput inp s.player)).pos.y > 700 then true
       else s.gameOver) := rfl

/-- The score computed by a simulation block: the old score plus the number of
recycle events of the frame. -/
theorem playFrame_score (rng : ℕ → ℕ) (k : ℕ) (inp : Input) (s : GameState) :
    (playFrame rng k inp s).1.score =
      s.score +
        recycleCount (Player.applyGravity (handleInput inp s.player)).dy
          (scrollStep (Player.applyGravity (handleInput inp s.player)) s.platforms).2 := by
  show (updatePlatformsAux rng
      (scrollStep (Player.applyGravity (handleInput inp s.player)) s.platforms).1.dy
      (scrollStep (Player.applyGravity (handleInput inp s.player)) s.platforms).2 k
      s.score).2.2 = _
  rw [updAux_score, scrollStep_dy]

/-- A simulation block preserves the number of platforms. -/
theorem playFrame_length (rng : ℕ → ℕ) (k : ℕ) (inp : Input) (s : GameState) :
    (playFrame rng k inp s).1.platforms.length = s.platforms.length := by
  show (updatePlatformsAux _ _ _ _ _).1.length = _
  rw [updAux_length, scrollStep_length]

/-! ### Claim theorems -/

/-- Claim C1: in every Playing-state frame the simulation steps run in the
fixed source order — input handling, player physics update, fall-out-of-bounds
check, scroll-up check and world shift, platform update with recycling and
scoring, collision resolution — i.e. the loop iteration equals the composition
of the individual stage transformers in exactly that order (presentation then
consumes the resulting state and touches none of it). -/
theorem C1_frame_order (rng : ℕ → ℕ) (k : ℕ) (inp : Input) (s : GameState)
    (h : s.gameOver = false) :
    loopIter rng k inp s =
      (stepCollisions (updatePlatforms rng k
          (stepScroll (stepFallCheck (stepGravity (stepInput inp s))))).1,
       (updatePlatforms rng k
          (stepScroll (stepFallCheck (stepGravity (stepInput inp s))))).2) := by
  rw [loopIter_playing rng k inp s h]
  rfl

/-- Claim C1 witness: the frame pipeline evaluated on a concrete Playing
state. -/
theorem C1_frame_order_witness :
    loopIter (fun _ => 7) 0 ⟨false, false, false, false⟩
        ⟨⟨⟨200, 200⟩, 0, 0⟩, [⟨⟨100, 400⟩⟩], 0, false⟩ =
      (stepCollisions (updatePlatforms (fun _ => 7) 0
          (stepScroll (stepFallCheck (stepGravity (stepInput
            ⟨false, false, false, false⟩
            ⟨⟨⟨200, 200⟩, 0, 0⟩, [⟨⟨100, 400⟩⟩], 0, false⟩))))).1,
       (updatePlatforms (fun _ => 7) 0
          (stepScroll (stepFallCheck (stepGravity (stepInput
            ⟨false, false, false, false⟩
            ⟨⟨⟨200, 200⟩, 0, 0⟩, [⟨⟨100, 400⟩⟩], 0, false⟩))))).2) :=
  C1_frame_order (fun _ => 7) 0 ⟨false, false, false, false⟩
    ⟨⟨⟨200, 200⟩, 0, 0⟩, [⟨⟨100, 400⟩⟩], 0, false⟩ rfl

/-- Claim C4 counterexample: with the player at `(100, 100)` falling at
`dy = 3`, both copies of the platform at `(100, 160)` overlap the player's
inset box while the player moves downward, yet the pass registers one hit, not
two — the claim's "every platform whose box overlaps ... registers a hit and is
processed" is false (after the first hit the jump impulse makes `dy = -8`, so
the second platform fails the `dy > 0` conjunct). -/
theorem C4_counterexample :
    hitTest ⟨⟨100, 100⟩, 0, 3⟩ ⟨⟨100, 160⟩⟩ = true ∧
    (handleCollisions ⟨⟨100, 100⟩, 0, 3⟩
        [⟨⟨100, 160⟩⟩, ⟨⟨100, 160⟩⟩]).2 ≠ 2 := by
  constructor
  · norm_num [hitTest]
  · norm_num [handleCollisions, hitTest, Player.jump]

/-- Claim C4 (amended): in any single frame's collision-resolution pass, if at
least one platform overlaps the player's inset box while the player moves
downward, then only the FIRST such platform in collection order registers a hit
(exactly one hit event fires in the pass, since the jump impulse makes the
velocity negative and every later platform fails the downward test), and the
player's velocity after the pass equals the fixed impulse `-8.0` (assignment,
not cumulative). -/
theorem C4_first_hit_wins (pl : Player) (ps : List Platform)
    (h : ∃ p ∈ ps, hitTest pl p = true) :
    handleCollisions pl ps = (pl.jump, 1) ∧ pl.jump.dy = -8 :=
  ⟨handleCollisions_first_hit pl ps h, rfl⟩

/-- Claim C4 witness: two overlapping platforms, one hit, final `dy = -8`. -/
theorem C4_first_hit_wins_witness :
    handleCollisions ⟨⟨100, 100⟩, 0, 3⟩ [⟨⟨100, 160⟩⟩, ⟨⟨100, 160⟩⟩] =
      (Player.jump ⟨⟨100, 100⟩, 0, 3⟩, 1) ∧
    (Player.jump ⟨⟨100, 100⟩, 0, 3⟩).dy = -8 :=
  C4_first_hit_wins ⟨⟨100, 100⟩, 0, 3⟩ [⟨⟨100, 160⟩⟩, ⟨⟨100, 160⟩⟩]
    ⟨⟨⟨100, 160⟩⟩, List.mem_cons_self _ _, by norm_num [hitTest]⟩

/-- Claim C5: `applyGravity` adds exactly the gravity constant `0.2` to the
vertical velocity and then adds the updated velocity to the `y` position
(leaving `x` alone), with no terminal-velocity clamp: over iterated
collision-free applications the velocity exceeds every bound. -/
theorem C5_applyGravity_unbounded (pl : Player) :
    pl.applyGravity.dy = pl.dy + 0.2 ∧
    pl.applyGravity.pos.y = pl.pos.y + (pl.dy + 0.2) ∧
    pl.applyGravity.pos.x = pl.pos.x ∧
    ∀ B : ℚ, ∃ n : ℕ, (Player.applyGravity^[n] pl).dy > B := by
  refine ⟨rfl, rfl, rfl, fun B => ?_⟩
  obtain ⟨n, hn⟩ := exists_nat_gt (5 * (B - pl.dy))
  refine ⟨n, ?_⟩
  rw [gravity_iterate_dy]
  have h5 : (0.2 : ℚ) = 1 / 5 := by norm_num
  rw [h5]
  have : (5 : ℚ) * (B - pl.dy) < n := hn
  linarith

/-- Claim C6: a collision triggers (velocity set to `-8`, bounce sound fired)
iff the four inset-box inequalities hold AND the player is moving downward; in
particular a player moving upward never triggers a collision, whatever the
overlap. -/
theorem C6_trigger_iff (pl : Player) (p : Platform) (ps : List Platform) :
    (hitTest pl p = true ↔
      (pl.pos.x + 50 > p.pos.x ∧ pl.pos.x + 20 < p.pos.x + 68 ∧
       pl.pos.y + 70 > p.pos.y ∧ pl.pos.y + 70 < p.pos.y + 14 ∧ pl.dy > 0)) ∧
    (hitTest pl p = true →
      (handleCollisions pl [p]).1.dy = -8 ∧ (handleCollisions pl [p]).2 = 1) ∧
    (pl.dy < 0 → handleCollisions pl ps = (pl, 0)) := by
  refine ⟨?_, ?_, ?_⟩
  · simp only [hitTest, Bool.and_eq_true, decide_eq_true_eq, gt_iff_lt]
    tauto
  · intro h
    simp [handleCollisions, h, Player.jump]
  · intro h
    exact handleCollisions_of_dy_nonpos pl ps (le_of_lt h)

/-- Claim C6 witness: overlapping box with `dy = 3` triggers and yields
`dy = -8`; the same geometry with `dy = -3` (moving up) does not trigger. -/
theorem C6_trigger_iff_witness :
    ((handleCollisions ⟨⟨100, 100⟩, 0, 3⟩ [⟨⟨100, 160⟩⟩]).1.dy = -8 ∧
     (handleCollisions ⟨⟨100, 100⟩, 0, 3⟩ [⟨⟨100, 160⟩⟩]).2 = 1) ∧
    handleCollisions ⟨⟨100, 100⟩, 0, -3⟩ [⟨⟨100, 160⟩⟩] =
      (⟨⟨100, 100⟩, 0, -3⟩, 0) :=
  ⟨(C6_trigger_iff ⟨⟨100, 100⟩, 0, 3⟩ ⟨⟨100, 160⟩⟩ []).2.1 (by norm_num [hitTest]),
   (C6_trigger_iff ⟨⟨100, 100⟩, 0, -3⟩ ⟨⟨100, 160⟩⟩ [⟨⟨100, 160⟩⟩]).2.2
     (by norm_num)⟩

/-- Claim C2 counterexample: with the player at `(100, 250)` (so `y < 300` and
`offset = 50`) and one platform at `y = 100`, the scroll block sets the
platform's `y` to `150 = 100 + 50`, not `50 = 100 - 50`: `move(-offset)`
computes `y -= -offset`, so every platform's `y` INCREASES by the offset. -/
theorem C2_counterexample :
    (scrollStep ⟨⟨100, 250⟩, 0, 1⟩ [⟨⟨40, 100⟩⟩]).2 ≠ [⟨⟨40, 50⟩⟩] ∧
    (scrollStep ⟨⟨100, 250⟩, 0, 1⟩ [⟨⟨40, 100⟩⟩]).2 = [⟨⟨40, 150⟩⟩] := by
  constructor <;> norm_num [scrollStep, Platform.move]

/-- Claim C2 (amended): in a Playing frame where the player's `y` is below the
threshold `300` after the physics update, the session computes
`offset = 300 - player.y`, sets `player.y` to exactly `300` (`x` and velocity
unchanged), and INCREASES every platform's `y` coordinate by `offset`
(translating all platforms downward on screen, i.e. the world scrolls);
when `player.y >= 300`, neither the player nor any platform is changed by
this rule. -/
theorem C2_scroll_shift (pl : Player) (ps : List Platform) :
    (pl.pos.y < 300 →
      scrollStep pl ps =
        ({ pl with pos := { pl.pos with y := 300 } },
         ps.map (fun p =>
           { p with pos := { p.pos with y := p.pos.y + (300 - pl.pos.y) } }))) ∧
    (300 ≤ pl.pos.y → scrollStep pl ps = (pl, ps)) := by
  constructor
  · intro h
    simp only [scrollStep, if_pos h]
    refine Prod.ext rfl ?_
    refine List.map_congr_left fun p _ => ?_
    simp [Platform.move]
    ring
  · intro h
    simp [scrollStep, not_lt.mpr h]

/-- Claim C2 witness: the spec scenario with the corrected direction — player
at `y = 250` is clamped to `300` and the platform at `y = 100` moves to
`150`. -/
theorem C2_scroll_shift_witness :
    scrollStep ⟨⟨100, 250⟩, 0, 1⟩ [⟨⟨40, 100⟩⟩] =
      (⟨⟨100, 300⟩, 0, 1⟩, [⟨⟨40, 150⟩⟩]) := by
  have h := (C2_scroll_shift ⟨⟨100, 250⟩, 0, 1⟩ [⟨⟨40, 100⟩⟩]).1 (by norm_num)
  rw [h]
  norm_num

/-- Claim C3 counterexample: with every rng draw equal to `499` and a platform
whose moved position is `701 > 700`, the recycle places it at `x = 499`, which
lies outside the claimed range `[0, window_width - platform_width] = [0, 432]`
(the code draws `rand() % 500`, i.e. `x` ranges over `[0, 499]`). -/
theorem C3_counterexample :
    (updatePlatformsAux (fun _ => 499) 0 [⟨⟨0, 701⟩⟩] 0 0).1 = [⟨⟨499, 0⟩⟩] ∧
    (updatePlatformsAux (fun _ => 499) 0 [⟨⟨0, 701⟩⟩] 0 0).2.2 = 1 ∧
    ¬ ((499 : ℚ) ≤ 500 - 68) := by
  refine ⟨?_, ?_, by norm_num⟩
  · norm_num [updatePlatformsAux, Platform.move]
  · norm_num [updatePlatformsAux, Platform.move]

/-- Claim C3 (amended): after each platform moves by minus the player's
vertical velocity, a platform whose `y` exceeds `700` is repositioned to
`y = 0` with a random `x = rand() % 500 ∈ [0, 499]` (not
`[0, window_width - platform_width]`) and the score is incremented by exactly
`1` per recycle; the recycle count is the only thing added to the score by a
frame, so the score never decreases while Playing. -/
theorem C3_recycle_rule (rng : ℕ → ℕ) (vy : ℚ) (ps : List Platform) (k : ℕ)
    (sc : ℤ) (inp : Input) (s : GameState) :
    (updatePlatformsAux rng vy ps k sc).2.2 = sc + recycleCount vy ps ∧
    sc ≤ (updatePlatformsAux rng vy ps k sc).2.2 ∧
    (∀ i (h : i < ps.length),
      (((ps.get ⟨i, h⟩).move vy).pos.y > 700 →
        ∃ j, (updatePlatformsAux rng vy ps k sc).1[i]? =
            some { pos := { x := ((rng j % 500 : ℕ) : ℚ), y := 0 } } ∧
          (0 : ℚ) ≤ ((rng j % 500 : ℕ) : ℚ) ∧
          ((rng j % 500 : ℕ) : ℚ) ≤ 499) ∧
      (¬ ((ps.get ⟨i, h⟩).move vy).pos.y > 700 →
        (updatePlatformsAux rng vy ps k sc).1[i]? =
          some ((ps.get ⟨i, h⟩).move vy))) ∧
    (playFrame rng k inp s).1.score =
      s.score +
        recycleCount (Player.applyGravity (handleInput inp s.player)).dy
          (scrollStep (Player.applyGravity (handleInput inp s.player))
            s.platforms).2 ∧
    s.score ≤ (playFrame rng k inp s).1.score := by
  refine ⟨updAux_score rng vy ps k sc, ?_, ?_, playFrame_score rng k inp s, ?_⟩
  · rw [updAux_score]
    omega
  · intro i h
    have hg := updAux_get rng vy ps k sc i h
    refine ⟨fun hy => ?_, hg.2⟩
    obtain ⟨j, hj⟩ := hg.1 hy
    have hb : rng j % 500 ≤ 499 := Nat.lt_succ_iff.mp (Nat.mod_lt _ (by norm_num))
    exact ⟨j, hj, Nat.cast_nonneg _, by exact_mod_cast hb⟩
  · rw [playFrame_score]
    omega

/-- Claim C3 witness: a platform at `y = 701` with zero velocity recycles,
adds `1` to the score `4`, and lands at a drawn `x ∈ [0, 499]`. -/
theorem C3_recycle_rule_witness :
    (updatePlatformsAux (fun _ => 499) 0 [⟨⟨0, 701⟩⟩] 0 4).2.2 =
      4 + recycleCount 0 [⟨⟨0, 701⟩⟩] ∧
    ∃ j, (updatePlatformsAux (fun _ => 499) 0 [⟨⟨0, 701⟩⟩] 0 4).1[0]? =
        some { pos := { x := (((fun _ : ℕ => 499) j % 500 : ℕ) : ℚ), y := 0 } } ∧
      (0 : ℚ) ≤ (((fun _ : ℕ => 499) j % 500 : ℕ) : ℚ) ∧
      (((fun _ : ℕ => 499) j % 500 : ℕ) : ℚ) ≤ 499 := by
  have h := C3_recycle_rule (fun _ => 499) 0 [⟨⟨0, 701⟩⟩] 0 4
    ⟨false, false, false, false⟩ ⟨⟨⟨0, 0⟩, 0, 0⟩, [], 0, false⟩
  exact ⟨h.1, (h.2.2.1 0 (by norm_num)).1 (by norm_num [Platform.move])⟩

/-- Claim C7: the game-over flag becomes true from a Playing frame exactly
when the player's `y` exceeds `700` after the physics update; with the flag
set and no retry input, the iteration changes nothing at all (no physics
runs); with the flag set, the flag clears exactly when retry is pressed
(which runs `resetGame`, after which the fresh frame cannot immediately
re-set it). -/
theorem C7_gameOver_flag (rng : ℕ → ℕ) (k : ℕ) (inp : Input) (s : GameState) :
    (s.gameOver = false →
      ((loopIter rng k inp s).1.gameOver = true ↔
        (Player.applyGravity (handleInput inp s.player)).pos.y > 700)) ∧
    (s.gameOver = true → inp.rPressed = false → loopIter rng k inp s = (s, k)) ∧
    (s.gameOver = true →
      ((loopIter rng k inp s).1.gameOver = false ↔ inp.rPressed = true)) := by
  refine ⟨?_, ?_, ?_⟩
  · intro h
    rw [loopIter_playing rng k inp s h, playFrame_gameOver, h]
    by_cases hc : (Player.applyGravity (handleInput inp s.player)).pos.y > 700
    · simp [hc]
    · simp [hc]
  · intro hg hr
    simp [loopIter, hg, hr]
  · intro hg
    cases hr : inp.rPressed
    · simp [loopIter, hg, hr]
    · have hres : (resetGame rng k s).1.gameOver = false := rfl
      have hy : (Player.applyGravity
          (handleInput inp (resetGame rng k s).1.player)).pos.y = 200 + (0 + 0.2) := by
        show (handleInput inp (resetGame rng k s).1.player).pos.y +
          ((handleInput inp (resetGame rng k s).1.player).dy + 0.2) = _
        rw [handleInput_pos_y, handleInput_dy]
        rfl
      simp only [loopIter, hg, hr, Bool.and_self, if_true, hres, Bool.false_eq_true,
        if_false, playFrame_gameOver, hy]
      norm_num

/-- Claim C7 witness: a Playing state whose post-gravity `y` is `750.2 > 700`
sets the flag. -/
theorem C7_gameOver_flag_witness :
    (loopIter (fun _ => 0) 0 ⟨false, false, false, false⟩
        ⟨⟨⟨200, 750⟩, 0, 0⟩, [], 0, false⟩).1.gameOver = true :=
  ((C7_gameOver_flag (fun _ => 0) 0 ⟨false, false, false, false⟩
      ⟨⟨⟨200, 750⟩, 0, 0⟩, [], 0, false⟩).1 rfl).mpr
    (by norm_num [handleInput, Player.applyGravity])

/-- Each platform built by `resetGame`'s loop sits at index `i` with the two
fresh draws `rng (k + 2*i)` and `rng (k + 2*i + 1)`. -/
theorem mkPlatforms_get (rng : ℕ → ℕ) :
    ∀ (n k i : ℕ), i < n →
      (mkPlatforms rng k n)[i]? =
        some { pos := { x := ((rng (k + 2 * i) % 500 : ℕ) : ℚ),
                        y := ((rng (k + 2 * i + 1) % 700 : ℕ) : ℚ) } } := by
  intro n
  induction n with
  | zero => intro k i h; exact absurd h (Nat.not_lt_zero i)
  | succ n ih =>
    intro k i h
    cases i with
    | zero => simp [mkPlatforms]
    | succ i =>
      have h' : i < n := Nat.lt_of_succ_lt_succ h
      have := ih (k + 2) i h'
      have harg : k + 2 + 2 * i = k + 2 * (i + 1) := by ring
      rw [harg] at this
      simpa [mkPlatforms] using this

/-- Every platform built by `resetGame`'s loop lies in `[0,500) × [0,700)`. -/
theorem mkPlatforms_range (rng : ℕ → ℕ) :
    ∀ (n k : ℕ), ∀ p ∈ mkPlatforms rng k n,
      0 ≤ p.pos.x ∧ p.pos.x < 500 ∧ 0 ≤ p.pos.y ∧ p.pos.y < 700 := by
  intro n
  induction n with
  | zero => intro k p hp; exact absurd hp (List.not_mem_nil p)
  | succ n ih =>
    intro k p hp
    rcases List.mem_cons.mp hp with rfl | hp'
    · refine ⟨Nat.cast_nonneg _, ?_, Nat.cast_nonneg _, ?_⟩
      · show ((rng k % 500 : ℕ) : ℚ) < 500
        exact_mod_cast Nat.mod_lt _ (show 0 < 500 by norm_num)
      · show ((rng (k + 1) % 700 : ℕ) : ℚ) < 700
        exact_mod_cast Nat.mod_lt _ (show 0 < 700 by norm_num)
    · exact ih (k + 2) p hp'

/-- Claim C8: `resetGame` leaves exactly the reset invariants — player at
`(200, 200)` with zero velocity, score `0`, flag clear, and `10` platforms,
the `i`-th placed from the fresh random draws `rng (k + 2i) % 500` and
`rng (k + 2i + 1) % 700`, hence each at a random position inside
`[0,500) × [0,700)`. -/
theorem C8_reset_state (rng : ℕ → ℕ) (k : ℕ) (s : GameState) :
    (resetGame rng k s).1.player =
      { pos := { x := 200, y := 200 }, dx := 0, dy := 0 } ∧
    (resetGame rng k s).1.score = 0 ∧
    (resetGame rng k s).1.gameOver = false ∧
    (resetGame rng k s).1.platforms.length = 10 ∧
    (∀ i, i < 10 →
      (resetGame rng k s).1.platforms[i]? =
        some { pos := { x := ((rng (k + 2 * i) % 500 : ℕ) : ℚ),
                        y := ((rng (k + 2 * i + 1) % 700 : ℕ) : ℚ) } }) ∧
    (∀ p ∈ (resetGame rng k s).1.platforms,
      0 ≤ p.pos.x ∧ p.pos.x < 500 ∧ 0 ≤ p.pos.y ∧ p.pos.y < 700) := by
  refine ⟨rfl, rfl, rfl, mkPlatforms_length rng 10 k, ?_, ?_⟩
  · intro i h
    exact mkPlatforms_get rng 10 k i h
  · intro p hp
    exact mkPlatforms_range rng 10 k p hp

/-- Claim C8 witness: with every rng draw equal to `3`, reset yields the exact
state and the first platform sits at `(3, 3)`. -/
theorem C8_reset_state_witness :
    (resetGame (fun _ => 3) 0 ⟨⟨⟨0, 0⟩, 0, 0⟩, [], 5, true⟩).1.player =
      { pos := { x := 200, y := 200 }, dx := 0, dy := 0 } ∧
    (resetGame (fun _ => 3) 0 ⟨⟨⟨0, 0⟩, 0, 0⟩, [], 5, true⟩).1.score = 0 ∧
    (resetGame (fun _ => 3) 0 ⟨⟨⟨0, 0⟩, 0, 0⟩, [], 5, true⟩).1.gameOver = false ∧
    (resetGame (fun _ => 3) 0 ⟨⟨⟨0, 0⟩, 0, 0⟩, [], 5, true⟩).1.platforms.length
      = 10 ∧
    (resetGame (fun _ => 3) 0 ⟨⟨⟨0, 0⟩, 0, 0⟩, [], 5, true⟩).1.platforms[0]? =
      some ⟨⟨3, 3⟩⟩ ∧
    (0 : ℚ) ≤ 3 ∧ (3 : ℚ) < 500 := by
  have h := C8_reset_state (fun _ => 3) 0 ⟨⟨⟨0, 0⟩, 0, 0⟩, [], 5, true⟩
  refine ⟨h.1, h.2.1, h.2.2.1, h.2.2.2.1, ?_, ?_⟩
  · have h0 := h.2.2.2.2.1 0 (by norm_num)
    simpa using h0
  · have hm := h.2.2.2.2.2 ⟨⟨3, 3⟩⟩ (by norm_num [resetGame, mkPlatforms])
    exact ⟨hm.1, hm.2.1⟩

/-- Claim C9: the platform collection always has exactly `10` members — every
Playing frame preserves the collection size, `resetGame` rebuilds it to `10`,
and any loop iteration started with `10` platforms ends with `10`. -/
theorem C9_platform_count (rng : ℕ → ℕ) (k : ℕ) (inp : Input) (s : GameState) :
    (playFrame rng k inp s).1.platforms.length = s.platforms.length ∧
    (resetGame rng k s).1.platforms.length = 10 ∧
    (s.platforms.length = 10 →
      (loopIter rng k inp s).1.platforms.length = 10) := by
  refine ⟨playFrame_length rng k inp s, mkPlatforms_length rng 10 k, ?_⟩
  intro h10
  by_cases hg : s.gameOver
  · by_cases hr : inp.rPressed
    · simp only [loopIter, hg, hr, Bool.and_self, if_true]
      have hres : (resetGame rng k s).1.gameOver = false := rfl
      rw [hres]
      simp only [Bool.false_eq_true, if_false]
      rw [playFrame_length]
      exact mkPlatforms_length rng 10 k
    · simp [loopIter, hg, hr, h10]
  · have hg' : s.gameOver = false := Bool.not_eq_true s.gameOver ▸ by
      simpa using hg
    rw [loopIter_playing rng k inp s hg', playFrame_length]
    exact h10

/-- Claim C9 witness: an iteration from a concrete 10-platform Playing state
ends with 10 platforms. -/
theorem C9_platform_count_witness :
    (loopIter (fun _ => 0) 0 ⟨false, false, false, false⟩
        ⟨⟨⟨200, 200⟩, 0, 0⟩, List.replicate 10 ⟨⟨50, 650⟩⟩, 0,
         false⟩).1.platforms.length = 10 :=
  (C9_platform_count (fun _ => 0) 0 ⟨false, false, false, false⟩
      ⟨⟨⟨200, 200⟩, 0, 0⟩, List.replicate 10 ⟨⟨50, 650⟩⟩, 0, false⟩).2.2
    (by simp)

/-- Claim C10: on the very frame whose fall-out check sets the flag (the
post-gravity `y` exceeds `700`), the remaining steps of the frame still run:
the iteration equals the pipeline that performs the scroll check, the platform
update with recycling and scoring, and the collision resolution on the state
whose flag is already `true`; physics stops only from the next iteration. -/
theorem C10_death_frame_completes (rng : ℕ → ℕ) (k : ℕ) (inp : Input)
    (s : GameState) (h0 : s.gameOver = false)
    (h : (Player.applyGravity (handleInput inp s.player)).pos.y > 700) :
    loopIter rng k inp s =
      (stepCollisions (updatePlatforms rng k
          (stepScroll { stepGravity (stepInput inp s) with gameOver := true })).1,
       (updatePlatforms rng k
          (stepScroll { stepGravity (stepInput inp s) with gameOver := true })).2) := by
  rw [loopIter_playing rng k inp s h0]
  simp only [playFrame]
  rw [if_pos h]
  rfl

/-- Claim C10 witness: on a death frame (`y` becomes `750.2 > 700`) the
platform at `y = 705` still recycles to `(7, 0)` and the score still rises
from `4` to `5`, while the flag is set. -/
theorem C10_death_frame_completes_witness :
    loopIter (fun _ => 7) 0 ⟨false, false, false, false⟩
        ⟨⟨⟨200, 750⟩, 0, 0⟩, [⟨⟨100, 705⟩⟩], 4, false⟩ =
      (⟨⟨⟨200, 750.2⟩, 0, 0.2⟩, [⟨⟨7, 0⟩⟩], 5, true⟩, 1) := by
  rw [C10_death_frame_completes (fun _ => 7) 0 ⟨false, false, false, false⟩
    ⟨⟨⟨200, 750⟩, 0, 0⟩, [⟨⟨100, 705⟩⟩], 4, false⟩ rfl
    (by norm_num [handleInput, Player.applyGravity])]
  norm_num [stepCollisions, updatePlatforms, stepScroll, stepGravity, stepInput,
    handleInput, Player.applyGravity, updatePlatformsAux, Platform.move,
    handleCollisions, hitTest, scrollStep]

end DoodleJump
